import Mathlib

/-!
A shallow embedding of the query/filter engine of the NYC collisions
dashboard (`src/project/utils/filters.py`), together with the aggregation
layer described in the specification.  Dataframes are modelled as a list
of column names plus rows of cell values; pandas/Python string operations
are modelled on the character sets they are actually applied to.
-/

namespace Collisions

/-- A cell of the dataframe: a string, a number, or a missing value
(pandas `NaN`).  Numeric cells are modelled as integers (`CRASH_YEAR`,
`CRASH_MONTH`, `CRASH_HOUR` are integral after `pd.to_numeric`). -/
inductive Value where
  | str : String → Value
  | int : Int → Value
  | null : Value
deriving DecidableEq, Repr

/-- Column constants from `filters.py`. -/
def COL_BOROUGH : String := "BOROUGH"

def COL_YEAR : String := "CRASH_YEAR"

def COL_MONTH : String := "CRASH_MONTH"

def COL_HOUR : String := "CRASH_HOUR"

def COL_COLLISION_ID : String := "COLLISION_ID"

def COL_PERSON_INJURY : String := "PERSON_INJURY"

def COL_PERSON_TYPE : String := "PERSON_TYPE"

def COL_VEHICLE_TYPE : String := "VEHICLE_TYPE_CODE_1"

def COL_FACTOR : String := "CONTRIBUTING_FACTOR_VEHICLE_1"

/-- A pandas DataFrame: an ordered schema of column names and rows of
cells, each row aligned positionally with the schema. -/
structure Frame where
  cols : List String
  rows : List (List Value)
deriving DecidableEq, Repr

/-- Cell lookup `row[c]`: the value at the schema position of column `c`,
`null` when the column is absent (callers guard on presence first, so the
`null` default is never semantically reached). -/
def getVal (cols : List String) (row : List Value) (c : String) : Value :=
  match cols.findIdx? (fun d => d == c) with
  | some i => row.getD i Value.null
  | none => Value.null

/-- Python `str.upper` (the source applies it to ASCII borough names and
dataset labels; modelled by ASCII uppercasing). -/
def pyUpper (s : String) : String := ⟨s.toList.map Char.toUpper⟩

/-- Python `str.lower` (applied to ASCII search text and labels; modelled
by ASCII lowercasing). -/
def pyLower (s : String) : String := ⟨s.toList.map Char.toLower⟩

/-- Python `str.strip`: remove leading and trailing whitespace (modelled
on the ASCII whitespace the dataset uses). -/
def pyStrip (s : String) : String :=
  ⟨((s.toList.dropWhile Char.isWhitespace).reverse.dropWhile
      Char.isWhitespace).reverse⟩

/-- Pandas `.astype(str)` applied to one cell: strings unchanged, numbers
printed, and a missing value becomes the literal string `"nan"` (the
string form of `float('nan')`). -/
def pyAstypeStr : Value → String
  | .str s => s
  | .int n => toString n
  | .null => "nan"

/-- Does `hay` start with `needle`? -/
def frontMatch : List Char → List Char → Bool
  | [], _ => true
  | _ :: _, [] => false
  | a :: as, b :: bs => a == b && frontMatch as bs

/-- One item of a regular-expression character class: a single character
or an inclusive code-point range. -/
inductive ClsItem where
  | single : Char → ClsItem
  | range : Char → Char → ClsItem
deriving DecidableEq, Repr

/-- Abstract syntax of the modelled fragment of Python regular
expressions, as interpreted by pandas `.str.contains` (whose default is
`regex=True`): literal characters, `.` (any character except newline),
character classes, grouping, alternation and the greedy quantifiers
`*`/`+`/`?` (desugared to `star`).  `fail` is the empty language, used
by the derivative-based matcher. -/
inductive Regex where
  | fail
  | eps
  | char : Char → Regex
  | anyc
  | cls : Bool → List ClsItem → Regex
  | cat : Regex → Regex → Regex
  | alt : Regex → Regex → Regex
  | star : Regex → Regex
deriving DecidableEq, Repr

/-- Does one class item match a character? -/
def clsItemMatch (c : Char) : ClsItem → Bool
  | .single a => a == c
  | .range lo hi => lo ≤ c && c ≤ hi

/-- Does a (possibly negated) character class match a character? -/
def clsMatch (neg : Bool) (items : List ClsItem) (c : Char) : Bool :=
  let m := items.any (clsItemMatch c)
  if neg then !m else m

/-- Does the regular expression accept the empty string? -/
def nullable : Regex → Bool
  | .fail => false
  | .eps => true
  | .char _ => false
  | .anyc => false
  | .cls _ _ => false
  | .cat r s => nullable r && nullable s
  | .alt r s => nullable r || nullable s
  | .star _ => true

/-- Brzozowski derivative of a regular expression by one character.
`anyc` (Python `.` without `re.DOTALL`) matches every character except
the newline. -/
def deriv (c : Char) : Regex → Regex
  | .fail => .fail
  | .eps => .fail
  | .char a => if a == c then .eps else .fail
  | .anyc => if c == '\n' then .fail else .eps
  | .cls neg items => if clsMatch neg items c then .eps else .fail
  | .cat r s =>
    if nullable r then .alt (.cat (deriv c r) s) (deriv c s) else .cat (deriv c r) s
  | .alt r s => .alt (deriv c r) (deriv c s)
  | .star r => .cat (deriv c r) (.star r)

/-- Does some prefix of the character list belong to the language? -/
def startMatch (r : Regex) : List Char → Bool
  | [] => nullable r
  | c :: cs => nullable r || startMatch (deriv c r) cs

/-- Python `re.search` on the modelled fragment: does the pattern match
at some position of the character list? -/
def reSearch (r : Regex) : List Char → Bool
  | [] => nullable r
  | c :: cs => startMatch r (c :: cs) || reSearch r cs

/-- Result of parsing a sub-pattern: the parsed regex with the
unconsumed rest, a definite Python `re.error`, or a construct outside
the modelled fragment (about which the model makes no claim). -/
inductive ReOut where
  | ok : Regex → List Char → ReOut
  | err
  | unm
deriving DecidableEq, Repr

/-- Result of parsing a character-class body. -/
inductive ClsOut where
  | ok : List ClsItem → List Char → ClsOut
  | err
  | unm
deriving DecidableEq, Repr

/-- Parse the body of a character class after `[` (and after an optional
leading `^`); `first` is true before the first item, where `]` is a
literal.  Mirrors Python `re`: an unterminated class and a reversed
range are `re.error`; a trailing or leading `-` is a literal; a
backslash inside a class leaves the modelled fragment. -/
def parseClsBody (fuel : Nat) (first : Bool) (acc : List ClsItem) (l : List Char) : ClsOut :=
  match fuel with
  | 0 => .unm
  | fuel + 1 =>
    match l with
    | [] => .err
    | c :: rest =>
      if c == ']' && !first then .ok acc.reverse rest
      else if c == '\\' then .unm
      else
        match rest with
        | '-' :: ']' :: rest2 =>
          .ok (ClsItem.single '-' :: ClsItem.single c :: acc).reverse rest2
        | ['-'] => .err
        | '-' :: '\\' :: _ => .unm
        | '-' :: d :: rest2 =>
          if c ≤ d then parseClsBody fuel false (ClsItem.range c d :: acc) rest2
          else .err
        | _ => parseClsBody fuel false (ClsItem.single c :: acc) rest

/-- Apply a second quantifier check after a quantified atom, as Python
does: a directly following `*` is the definite "multiple repeat"
`re.error`, while `?` (lazy) and `+` (possessive) quantifiers are valid
Python outside the modelled fragment. -/
def quantCheck (r : Regex) (l : List Char) : ReOut :=
  match l with
  | '*' :: _ => .err
  | '+' :: _ => .unm
  | '?' :: _ => .unm
  | _ => .ok r l

/-- Apply an optional greedy quantifier to a parsed atom (`+` and `?`
desugared through `star`/`alt`). -/
def quantWrap (a : Regex) (l : List Char) : ReOut :=
  match l with
  | '*' :: rest => quantCheck (Regex.star a) rest
  | '+' :: rest => quantCheck (Regex.cat a (Regex.star a)) rest
  | '?' :: rest => quantCheck (Regex.alt a Regex.eps) rest
  | _ => .ok a l

/-- Parser mode: a full alternation, a concatenation with accumulator,
or a single atom. -/
inductive PMode where
  | alt
  | seqgo : Regex → PMode
  | atom
deriving Repr

/-- Recursive-descent parser for the modelled fragment of Python regex
syntax, fuelled for structural recursion.  Constructs with
Python-specific corner semantics — backslash escapes, `{`-counted
repeats, the `^`/`$` anchors, extension groups `(?...)` and lazy or
possessive quantifiers — answer `unm` (outside the fragment); definite
Python `re.error` inputs (a quantifier with nothing to repeat, an
unbalanced or unterminated group or class, a reversed range, a doubled
`*`) answer `err`. -/
def parseRe (fuel : Nat) (m : PMode) (l : List Char) : ReOut :=
  match fuel with
  | 0 => .unm
  | fuel + 1 =>
    match m with
    | .alt =>
      match parseRe fuel (.seqgo Regex.eps) l with
      | .ok r rest =>
        match rest with
        | '|' :: rest2 =>
          match parseRe fuel .alt rest2 with
          | .ok s rest3 => .ok (Regex.alt r s) rest3
          | o => o
        | _ => .ok r rest
      | o => o
    | .seqgo acc =>
      match l with
      | [] => .ok acc []
      | ')' :: rest => .ok acc (')' :: rest)
      | '|' :: rest => .ok acc ('|' :: rest)
      | c :: rest =>
        if c == '*' || c == '+' || c == '?' then .err
        else if c == '{' || c == '\\' || c == '^' || c == '$' then .unm
        else
          match parseRe fuel .atom (c :: rest) with
          | .ok a rest2 =>
            match quantWrap a rest2 with
            | .ok a2 rest3 => parseRe fuel (.seqgo (Regex.cat acc a2)) rest3
            | o => o
          | o => o
    | .atom =>
      match l with
      | [] => .err
      | '(' :: '?' :: _ => .unm
      | '(' :: rest =>
        match parseRe fuel .alt rest with
        | .ok r (')' :: rest2) => .ok r rest2
        | .ok _ _ => .err
        | o => o
      | '[' :: '^' :: rest =>
        match parseClsBody fuel true [] rest with
        | .ok items rest2 => .ok (Regex.cls true items) rest2
        | .err => .err
        | .unm => .unm
      | '[' :: rest =>
        match parseClsBody fuel true [] rest with
        | .ok items rest2 => .ok (Regex.cls false items) rest2
        | .err => .err
        | .unm => .unm
      | '.' :: rest => .ok Regex.anyc rest
      | c :: rest => .ok (Regex.char c) rest

/-- Outcome of compiling a whole pattern: a regex of the modelled
fragment, a definite `re.error`, or outside the fragment. -/
inductive ReParse where
  | ok : Regex → ReParse
  | err
  | unm
deriving DecidableEq, Repr

/-- Compile a whole search pattern.  Leftover input after the top-level
alternation can only start with `)`, which is Python's "unbalanced
parenthesis" `re.error`. -/
def reParse3 (s : String) : ReParse :=
  match parseRe (s.length * 2 + 8) .alt s.toList with
  | .ok r [] => .ok r
  | .ok _ (')' :: _) => .err
  | .ok _ _ => .unm
  | .err => .err
  | .unm => .unm

/-- Does the pattern compile inside the modelled fragment? -/
def reOkString (s : String) : Bool :=
  match reParse3 s with
  | .ok _ => true
  | _ => false

/-- Total projection of pandas `.str.contains(pat, na=False)` with its
default `regex=True`: true when the compiled pattern matches somewhere
in `hay`.  For a pattern that raises `re.error` or falls outside the
modelled fragment this projection answers `false`; the error path of the
program is captured by `searchStepE`/`apply_filtersE` below. -/
def reContains (pat hay : String) : Bool :=
  match reParse3 pat with
  | .ok r => reSearch r hay.toList
  | _ => false

/-- One categorical `.isin` filter step of `apply_filters`
(`years`/`months`/`hours`/`injuries`/`person_types`/`vehicle_types`/
`factors`): active only when the criterion list is truthy (non-`None`,
non-empty) and its column is present; keeps the rows whose cell value is
a member of the criterion list. -/
def isinStep (crit : Option (List Value)) (c : String) (f : Frame) : Frame :=
  match crit with
  | some vs =>
    if !vs.isEmpty && f.cols.contains c then
      { f with rows := f.rows.filter (fun r => vs.contains (getVal f.cols r c)) }
    else f
  | none => f

/-- The borough filter step of `apply_filters`: uppercases the criterion
values, then keeps rows whose `BOROUGH` cell, viewed as a string and
uppercased, is in the uppercased list.  A non-string cell (pandas `.str`
accessor yields `NaN` there) never matches. -/
def boroughStep (crit : Option (List String)) (f : Frame) : Frame :=
  match crit with
  | some bs =>
    if !bs.isEmpty && f.cols.contains COL_BOROUGH then
      { f with rows := f.rows.filter (fun r =>
          match getVal f.cols r COL_BOROUGH with
          | .str s => (bs.map pyUpper).contains (pyUpper s)
          | _ => false) }
    else f
  | none => f

/-- The fixed list of searched columns of the free-text criterion, in the
order the source iterates them. -/
def searchedCols : List String := [COL_FACTOR, COL_VEHICLE_TYPE, COL_BOROUGH]

/-- One column's free-text test:
`cell.astype(str).str.lower().str.contains(text, na=False)` — pandas
interprets `text` as a regular expression (default `regex=True`); this
is the total projection, faithful whenever the pattern compiles in the
modelled fragment (`reOkString text`). -/
def colSearchMatch (text : String) (v : Value) : Bool :=
  reContains text (pyLower (pyAstypeStr v))

/-- The free-text row mask accumulated over a list of searched columns:
starts `True`, and for each listed column that is present in the schema
conjoins that column's match (`mask &= ...`); absent columns are
skipped. -/
def searchMaskOn (l : List String) (cols : List String) (text : String)
    (row : List Value) : Bool :=
  l.foldl
    (fun m c =>
      if cols.contains c then m && colSearchMatch text (getVal cols row c) else m)
    true

/-- The free-text step of `apply_filters`: skipped for `None` or the
falsy empty string; otherwise the text is stripped and lowercased, and if
still non-empty the rows are filtered by the accumulated mask over
`searchedCols`. -/
def searchStep (crit : Option String) (f : Frame) : Frame :=
  match crit with
  | some s =>
    if s == "" then f
    else
      let text := pyLower (pyStrip s)
      if text == "" then f
      else { f with rows := f.rows.filter (searchMaskOn searchedCols f.cols text) }
  | none => f

/-- The nine optional keyword arguments of `apply_filters`, gathered into
one record (the spec's `FilterSpec`).  `boroughs` holds strings because
the source calls `.upper()` on each element; the other list criteria are
passed raw into `.isin`, so they may hold values of any cell type. -/
structure FilterSpec where
  boroughs : Option (List String) := none
  years : Option (List Value) := none
  months : Option (List Value) := none
  hours : Option (List Value) := none
  injuries : Option (List Value) := none
  person_types : Option (List Value) := none
  vehicle_types : Option (List Value) := none
  factors : Option (List Value) := none
  search_text : Option String := none
deriving DecidableEq, Repr

/-- `apply_filters` from `filters.py`: the filter steps applied in source
order (borough, year, month, hour, injury, person type, vehicle type,
factor, free text). -/
def apply_filters (df : Frame) (spec : FilterSpec) : Frame :=
  let f := boroughStep spec.boroughs df
  let f := isinStep spec.years COL_YEAR f
  let f := isinStep spec.months COL_MONTH f
  let f := isinStep spec.hours COL_HOUR f
  let f := isinStep spec.injuries COL_PERSON_INJURY f
  let f := isinStep spec.person_types COL_PERSON_TYPE f
  let f := isinStep spec.vehicle_types COL_VEHICLE_TYPE f
  let f := isinStep spec.factors COL_FACTOR f
  searchStep spec.search_text f

/-- The outcome of one full filter run: a result frame, the scan raising
Python `re.error` (pandas compiles the free-text pattern as a regex, so
a malformed pattern raises while a searched column is processed), or a
search pattern outside the modelled regex fragment, about which the
model makes no claim. -/
inductive PdResult where
  | ok : Frame → PdResult
  | reError
  | unmodelled
deriving DecidableEq, Repr

/-- Error-aware free-text step: identical to `searchStep` except that a
pattern the model knows to raise `re.error` yields `reError` whenever at
least one searched column is present (pandas compiles the pattern while
processing the first present column; with no searched column present the
loop never calls `.str.contains` and nothing raises). -/
def searchStepE (crit : Option String) (f : Frame) : PdResult :=
  match crit with
  | some s =>
    if s == "" then .ok f
    else
      let text := pyLower (pyStrip s)
      if text == "" then .ok f
      else
        match reParse3 text with
        | .ok _ => .ok { f with rows := f.rows.filter (searchMaskOn searchedCols f.cols text) }
        | .err =>
          if searchedCols.any (fun c => f.cols.contains c) then .reError
          else .ok { f with rows := f.rows.filter (searchMaskOn searchedCols f.cols text) }
        | .unm =>
          if searchedCols.any (fun c => f.cols.contains c) then .unmodelled
          else .ok { f with rows := f.rows.filter (searchMaskOn searchedCols f.cols text) }
  | none => .ok f

/-- `apply_filters` with the error path made explicit: the categorical
steps never raise; only the free-text step can surface `re.error`. -/
def apply_filtersE (df : Frame) (spec : FilterSpec) : PdResult :=
  let f := boroughStep spec.boroughs df
  let f := isinStep spec.years COL_YEAR f
  let f := isinStep spec.months COL_MONTH f
  let f := isinStep spec.hours COL_HOUR f
  let f := isinStep spec.injuries COL_PERSON_INJURY f
  let f := isinStep spec.person_types COL_PERSON_TYPE f
  let f := isinStep spec.vehicle_types COL_VEHICLE_TYPE f
  let f := isinStep spec.factors COL_FACTOR f
  searchStepE spec.search_text f

/-- The free-text criterion is absent, falsy, or compiles inside the
modelled regex fragment — the domain on which the total `apply_filters`
agrees with the error-aware `apply_filtersE`. -/
def searchTextOk (crit : Option String) : Bool :=
  match crit with
  | none => true
  | some s => s == "" || pyLower (pyStrip s) == "" || reOkString (pyLower (pyStrip s))

/-- The result dictionary of `parse_search_query` when the query is
truthy: an optional borough, an optional year, and leftover keywords. -/
structure ParsedQuery where
  borough : Option String := none
  year : Option Nat := none
  keywords : List String := []
deriving DecidableEq, Repr

/-- The borough token enumeration of `parse_search_query`. -/
def BOROUGH_TOKENS : List String :=
  ["MANHATTAN", "BROOKLYN", "QUEENS", "BRONX", "STATEN", "STATEN ISLAND"]

/-- Python `str.isdigit` on one character, restricted to the digit
characters this development uses: the ASCII digits, the Arabic-Indic
digits U+0660–U+0669 (Unicode decimal digits), and the superscripts
¹ ² ³ (Numeric_Type=Digit but not decimal, so `isdigit` accepts them
while `int()` rejects them). -/
def pyIsDigitChar (c : Char) : Bool :=
  ('0' ≤ c && c ≤ '9') || ('٠' ≤ c && c ≤ '٩') ||
    c == '¹' || c == '²' || c == '³'

/-- The decimal value `int()` assigns to one character: defined exactly
for Unicode decimal digits (here ASCII and Arabic-Indic), undefined for
digit-but-not-decimal characters such as the superscripts. -/
def pyDigitVal? (c : Char) : Option Nat :=
  if '0' ≤ c && c ≤ '9' then some (c.toNat - '0'.toNat)
  else if '٠' ≤ c && c ≤ '٩' then some (c.toNat - '٠'.toNat)
  else none

/-- Python `str.isdigit`: non-empty and every character is a digit. -/
def pyIsDigit (s : String) : Bool :=
  !s.toList.isEmpty && s.toList.all pyIsDigitChar

/-- Python `int(p)` on a string whose characters all pass `isdigit`:
succeeds with the base-10 value when every character is a decimal digit,
fails (`ValueError`) when some character has no decimal value. -/
def pyIntOfDigits? (s : String) : Option Nat :=
  s.toList.foldl
    (fun acc c =>
      match acc, pyDigitVal? c with
      | some a, some d => some (a * 10 + d)
      | _, _ => none)
    (some 0)

/-- The per-token classification loop body of `parse_search_query`:
borough tokens (uppercased membership, `STATEN*` normalised to
`"STATEN ISLAND"`) override the borough; 4-character all-digit tokens set
the year when `int()` succeeds and are dropped when it raises; every
other token is appended to the keywords. -/
def classifyToken (r : ParsedQuery) (p : String) : ParsedQuery :=
  let up := pyUpper p
  if BOROUGH_TOKENS.contains up then
    { r with
        borough :=
          some (if frontMatch "STATEN".toList up.toList then "STATEN ISLAND" else up) }
  else if pyIsDigit p && p.length == 4 then
    match pyIntOfDigits? p with
    | some n => { r with year := some n }
    | none => r
  else
    { r with keywords := r.keywords ++ [p] }

/-- Helper for `pySplitWs`: walk the characters accumulating the current
token in reverse, emitting the finished token at each whitespace run. -/
def wsTokensGo (cur : List Char) : List Char → List String
  | [] => if cur.isEmpty then [] else [⟨cur.reverse⟩]
  | c :: cs =>
    if c.isWhitespace then
      if cur.isEmpty then wsTokensGo [] cs
      else String.mk cur.reverse :: wsTokensGo [] cs
    else wsTokensGo (c :: cur) cs

/-- Python `str.split()` with no separator: split on whitespace runs,
dropping empty pieces. -/
def pySplitWs (s : String) : List String :=
  wsTokensGo [] s.toList

/-- `parse_search_query` from `filters.py`.  A falsy (empty) query
returns the empty dictionary `{}`, modelled as `none`; otherwise the
tokens of the stripped query are folded through `classifyToken` starting
from the all-unset result, and the dictionary is returned as `some`. -/
def parse_search_query (query : String) : Option ParsedQuery :=
  if query == "" then none
  else some ((pySplitWs (pyStrip query)).foldl classifyToken {})

/-- The four display metrics of the summary layer. -/
structure SummaryMetrics where
  crashes : Nat
  persons : Nat
  injuries : Nat
  fatalities : Nat
deriving DecidableEq, Repr

/-- Modelled from the spec: the aggregation layer (`summarize`, spec
§4.3) is not under `src/` — the layout only declares the KPI
placeholders (`summary-total-crashes`, …) that its output fills.
Following the spec's words: crashes = number of distinct collision
identifiers present; persons = row count; injuries = rows whose injury
severity is outside the configurable "unspecified/no injury" label set;
fatalities = rows whose injury severity is in the configurable fatal
label set. -/
def summarize (noInjuryLabels fatalLabels : List Value) (df : Frame) :
    SummaryMetrics :=
  { crashes := (df.rows.map (fun r => getVal df.cols r COL_COLLISION_ID)).dedup.length
    persons := df.rows.length
    injuries :=
      (df.rows.filter
        (fun r => !noInjuryLabels.contains (getVal df.cols r COL_PERSON_INJURY))).length
    fatalities :=
      (df.rows.filter
        (fun r => fatalLabels.contains (getVal df.cols r COL_PERSON_INJURY))).length }

/-- Python truthiness of a list criterion as `apply_filters` tests it:
`None` and the empty list are falsy, so the criterion is inactive. -/
def critInactive : Option (List α) → Bool
  | none => true
  | some l => l.isEmpty

/-- Python truthiness of the `search_text` criterion: `None` and the
empty string are falsy, so the criterion is inactive. -/
def searchInactive : Option String → Bool
  | none => true
  | some s => s == ""

/-- Every criterion of the spec is absent or empty. -/
def specInactive (s : FilterSpec) : Bool :=
  critInactive s.boroughs && critInactive s.years && critInactive s.months &&
    critInactive s.hours && critInactive s.injuries && critInactive s.person_types &&
    critInactive s.vehicle_types && critInactive s.factors &&
    searchInactive s.search_text

/-- Following the spec's words (for comparison with the source): a token
consisting of exactly 4 ASCII digits. -/
def isFourAsciiDigits (s : String) : Bool :=
  s.length == 4 && s.toList.all (fun c => '0' ≤ c && c ≤ '9')

/-- The 5-row dataset of spec Example 3: 3 rows have `BOROUGH="QUEENS"`,
and the search string "speed" occurs in `CONTRIBUTING_FACTOR_VEHICLE_1`
of exactly 1 of those 3 rows. -/
def queensSpeedFrame : Frame :=
  { cols := [COL_BOROUGH, COL_VEHICLE_TYPE, COL_FACTOR]
    rows :=
      [ [Value.str "QUEENS", Value.str "Sedan", Value.str "Unsafe Speed"],
        [Value.str "QUEENS", Value.str "SUV", Value.str "Driver Inattention"],
        [Value.str "QUEENS", Value.str "Bike", Value.str "Following Too Closely"],
        [Value.str "BROOKLYN", Value.str "Sedan", Value.str "Unsafe Speed"],
        [Value.str "MANHATTAN", Value.str "Taxi", Value.str "Glare"] ] }

/-- A one-row dataset whose vehicle type is the mixed-case `"Sedan"`. -/
def sedanFrame : Frame :=
  { cols := [COL_VEHICLE_TYPE], rows := [[Value.str "Sedan"]] }

/-- A one-row dataset whose contributing factor is missing (`NaN`). -/
def nullFactorFrame : Frame :=
  { cols := [COL_FACTOR], rows := [[Value.null]] }

/-- A one-row dataset whose borough cell is the empty string. -/
def emptyBoroughFrame : Frame :=
  { cols := [COL_BOROUGH], rows := [[Value.str ""]] }

/-- A one-row dataset with the numeric crash year 2019. -/
def yearFrame : Frame :=
  { cols := [COL_YEAR], rows := [[Value.int 2019]] }

/-- The 10-person-row dataset of spec Example 4: 4 distinct collision
identifiers, 2 fatal rows, 3 non-fatal-injury rows, 5 unspecified. -/
def personsFrame : Frame :=
  { cols := [COL_COLLISION_ID, COL_PERSON_INJURY]
    rows :=
      [ [Value.int 1, Value.str "Killed"],
        [Value.int 1, Value.str "Unspecified"],
        [Value.int 1, Value.str "Unspecified"],
        [Value.int 2, Value.str "Killed"],
        [Value.int 2, Value.str "Injured"],
        [Value.int 2, Value.str "Unspecified"],
        [Value.int 3, Value.str "Injured"],
        [Value.int 3, Value.str "Unspecified"],
        [Value.int 4, Value.str "Injured"],
        [Value.int 4, Value.str "Unspecified"] ] }

/-- A dataset with no columns at all: every criterion's column is absent
from the schema. -/
def noColsFrame : Frame :=
  { cols := [], rows := [[], []] }

/-- A fully populated `FilterSpec`, used to exercise the schema-tolerance
statements at a concrete input. -/
def fullSpec : FilterSpec :=
  { boroughs := some ["QUEENS"]
    years := some [Value.int 2019]
    months := some [Value.int 5]
    hours := some [Value.int 13]
    injuries := some [Value.str "Killed"]
    person_types := some [Value.str "Occupant"]
    vehicle_types := some [Value.str "Sedan"]
    factors := some [Value.str "Glare"]
    search_text := some "speed" }

/-- A `FilterSpec` in which every criterion is absent (`None`) or empty
(`[]`, `""`). -/
def inactiveSpec : FilterSpec :=
  { boroughs := some []
    years := none
    months := some []
    hours := none
    injuries := some []
    person_types := none
    vehicle_types := some []
    factors := none
    search_text := some "" }

theorem isinStep_none (c : String) (f : Frame) : isinStep none c f = f := rfl

theorem boroughStep_none (f : Frame) : boroughStep none f = f := rfl

theorem searchStep_none (f : Frame) : searchStep none f = f := rfl

theorem isinStep_cols (crit : Option (List Value)) (c : String) (f : Frame) :
    (isinStep crit c f).cols = f.cols := by
  cases crit with
  | none => rfl
  | some vs =>
    simp only [isinStep]
    split <;> rfl

theorem boroughStep_cols (crit : Option (List String)) (f : Frame) :
    (boroughStep crit f).cols = f.cols := by
  cases crit with
  | none => rfl
  | some bs =>
    simp only [boroughStep]
    split <;> rfl

theorem searchStep_cols (crit : Option String) (f : Frame) :
    (searchStep crit f).cols = f.cols := by
  cases crit with
  | none => rfl
  | some s =>
    simp only [searchStep]
    split
    · rfl
    · split <;> rfl

theorem isinStep_rows (crit : Option (List Value)) (c : String) (f : Frame) :
    (isinStep crit c f).rows.Sublist f.rows := by
  cases crit with
  | none => exact List.Sublist.refl _
  | some vs =>
    simp only [isinStep]
    split
    · exact List.filter_sublist _
    · exact List.Sublist.refl _

theorem boroughStep_rows (crit : Option (List String)) (f : Frame) :
    (boroughStep crit f).rows.Sublist f.rows := by
  cases crit with
  | none => exact List.Sublist.refl _
  | some bs =>
    simp only [boroughStep]
    split
    · exact List.filter_sublist _
    · exact List.Sublist.refl _

theorem searchStep_rows (crit : Option String) (f : Frame) :
    (searchStep crit f).rows.Sublist f.rows := by
  cases crit with
  | none => exact List.Sublist.refl _
  | some s =>
    simp only [searchStep]
    split
    · exact List.Sublist.refl _
    · split
      · exact List.Sublist.refl _
      · exact List.filter_sublist _

theorem isinStep_absent (crit : Option (List Value)) (c : String) (f : Frame)
    (h : c ∉ f.cols) : isinStep crit c f = f := by
  cases crit with
  | none => rfl
  | some vs => simp [isinStep, h]

theorem boroughStep_absent (crit : Option (List String)) (f : Frame)
    (h : COL_BOROUGH ∉ f.cols) : boroughStep crit f = f := by
  cases crit with
  | none => rfl
  | some bs => simp [boroughStep, h]

theorem searchFold_eq (cols : List String) (text : String) (row : List Value)
    (l : List String) (b : Bool) :
    l.foldl
        (fun m c =>
          if cols.contains c then m && colSearchMatch text (getVal cols row c) else m)
        b
      = (b && l.all (fun c => !cols.contains c || colSearchMatch text (getVal cols row c))) := by
  induction l generalizing b with
  | nil => simp
  | cons c t ih =>
    simp only [List.foldl_cons, List.all_cons]
    cases hcb : cols.contains c with
    | true =>
      rw [if_pos rfl, ih, Bool.not_true, Bool.false_or, Bool.and_assoc]
    | false =>
      rw [if_neg (by simp), ih, Bool.not_false, Bool.true_or, Bool.true_and]

theorem searchMaskOn_eq_all (l cols : List String) (text : String) (row : List Value) :
    searchMaskOn l cols text row
      = l.all (fun c => !cols.contains c || colSearchMatch text (getVal cols row c)) := by
  simp only [searchMaskOn]
  rw [searchFold_eq cols text row l true, Bool.true_and]

theorem searchStep_absent (crit : Option String) (f : Frame)
    (h1 : COL_FACTOR ∉ f.cols)
    (h2 : COL_VEHICLE_TYPE ∉ f.cols)
    (h3 : COL_BOROUGH ∉ f.cols) :
    searchStep crit f = f := by
  cases crit with
  | none => rfl
  | some s =>
    simp only [searchStep]
    split
    · rfl
    · split
      · rfl
      · have hrows : f.rows.filter (searchMaskOn searchedCols f.cols (pyLower (pyStrip s)))
            = f.rows := by
          have hcongr :
              f.rows.filter (searchMaskOn searchedCols f.cols (pyLower (pyStrip s)))
                = f.rows.filter (fun _ => true) :=
            List.filter_congr (fun r _ => by
              simp [searchMaskOn_eq_all, searchedCols, h1, h2, h3])
          rw [hcongr, List.filter_true]
        rw [hrows]

theorem isinStep_inactive (crit : Option (List Value)) (c : String) (f : Frame)
    (h : critInactive crit = true) : isinStep crit c f = f := by
  cases crit with
  | none => rfl
  | some vs =>
    simp only [critInactive] at h
    have hnil : vs = [] := by simpa using h
    subst hnil
    rfl

theorem boroughStep_inactive (crit : Option (List String)) (f : Frame)
    (h : critInactive crit = true) : boroughStep crit f = f := by
  cases crit with
  | none => rfl
  | some bs =>
    simp only [critInactive] at h
    have hnil : bs = [] := by simpa using h
    subst hnil
    rfl

theorem searchStep_inactive (crit : Option String) (f : Frame)
    (h : searchInactive crit = true) : searchStep crit f = f := by
  cases crit with
  | none => rfl
  | some s =>
    simp only [searchInactive] at h
    have hs : s = "" := by simpa using h
    subst hs
    rfl

theorem searchStepE_ok (crit : Option String) (f : Frame)
    (h : searchTextOk crit = true) : searchStepE crit f = PdResult.ok (searchStep crit f) := by
  cases crit with
  | none => rfl
  | some s =>
    by_cases hs : s = ""
    · subst hs
      rfl
    · have hs' : (s == "") = false := beq_eq_false_iff_ne.mpr hs
      by_cases ht : pyLower (pyStrip s) = ""
      · simp [searchStepE, searchStep, hs', ht]
      · have ht' : (pyLower (pyStrip s) == "") = false := beq_eq_false_iff_ne.mpr ht
        have h3 : reOkString (pyLower (pyStrip s)) = true := by
          simp only [searchTextOk, hs', ht', Bool.false_or] at h
          exact h
        have hok : ∃ r, reParse3 (pyLower (pyStrip s)) = ReParse.ok r := by
          cases hre : reParse3 (pyLower (pyStrip s)) with
          | ok r => exact ⟨r, rfl⟩
          | err => simp [reOkString, hre] at h3
          | unm => simp [reOkString, hre] at h3
        obtain ⟨r, hr⟩ := hok
        simp [searchStepE, searchStep, hs', ht', hr]

theorem keywords_foldl (l : List String) (r : ParsedQuery) :
    (l.foldl classifyToken r).keywords
      = r.keywords
          ++ l.filter
              (fun p =>
                !BOROUGH_TOKENS.contains (pyUpper p) && !(pyIsDigit p && p.length == 4)) := by
  induction l generalizing r with
  | nil => simp
  | cons p t ih =>
    simp only [List.foldl_cons, List.filter_cons, ih]
    by_cases hb : pyUpper p ∈ BOROUGH_TOKENS
    · simp [classifyToken, hb]
    · cases hd1 : pyIsDigit p with
      | false => simp [classifyToken, hb, hd1]
      | true =>
        by_cases hd2 : p.length = 4
        · cases hv : pyIntOfDigits? p with
          | some n => simp [classifyToken, hb, hd1, hd2, hv]
          | none => simp [classifyToken, hb, hd1, hd2, hv]
        · simp [classifyToken, hb, hd1, hd2]

/-- Claim C1 counterexample: on the 5-row dataset of spec Example 3
(3 rows with BOROUGH="QUEENS"; the search string "speed" occurs in
CONTRIBUTING_FACTOR_VEHICLE_1 of exactly 1 of those 3 rows), filtering
by borough QUEENS plus free-text search "speed" does NOT return exactly
1 row — the code combines the per-column tests with AND, so the result
has 0 rows. -/
theorem claim_C1_counterexample :
    (apply_filters queensSpeedFrame
          { boroughs := some ["QUEENS"], search_text := some "speed" }).rows.length
      ≠ 1 := by
  decide

/-- Claim C1 amended: for every dataset and every search string that is
non-empty after trimming and whose trimmed, lowercased text compiles as
a regex in the modelled fragment (pandas `.str.contains` default is
`regex=True`), a record is kept by the free-text criterion exactly when
EVERY searched column (contributing factor, vehicle type, borough)
present in the dataset regex-matches the text (`mask &= ...` is AND
across columns, not the claimed OR); moreover the scan does not raise
on such patterns. -/
theorem claim_C1_amended (df : Frame) (s : String) (h : pyLower (pyStrip s) ≠ "")
    (hre : reOkString (pyLower (pyStrip s)) = true) :
    (apply_filters df { search_text := some s }
        = { df with
              rows :=
                df.rows.filter (fun r =>
                  searchedCols.all (fun c =>
                    !df.cols.contains c
                      || colSearchMatch (pyLower (pyStrip s)) (getVal df.cols r c))) })
      ∧ apply_filtersE df { search_text := some s }
          = PdResult.ok (apply_filters df { search_text := some s }) := by
  refine ⟨?_, searchStepE_ok (some s) df (by simp [searchTextOk, hre])⟩
  have hs : s ≠ "" := by
    intro hs
    subst hs
    exact h rfl
  have hs' : (s == "") = false := beq_eq_false_iff_ne.mpr hs
  have ht' : (pyLower (pyStrip s) == "") = false := beq_eq_false_iff_ne.mpr h
  show searchStep (some s) df = _
  simp only [searchStep, hs', ht']
  rw [if_neg (by simp), if_neg (by simp)]
  have hcongr :
      df.rows.filter (searchMaskOn searchedCols df.cols (pyLower (pyStrip s)))
        = df.rows.filter (fun r =>
            searchedCols.all (fun c =>
              !df.cols.contains c
                || colSearchMatch (pyLower (pyStrip s)) (getVal df.cols r c))) :=
    List.filter_congr
      (fun r _ => searchMaskOn_eq_all searchedCols df.cols (pyLower (pyStrip s)) r)
  rw [hcongr]

/-- Claim C1 amended, witnessed at the Example-3 dataset with search
string "speed". -/
theorem claim_C1_witness :
    (apply_filters queensSpeedFrame { search_text := some "speed" }
        = { queensSpeedFrame with
              rows :=
                queensSpeedFrame.rows.filter (fun r =>
                  searchedCols.all (fun c =>
                    !queensSpeedFrame.cols.contains c
                      || colSearchMatch (pyLower (pyStrip "speed"))
                          (getVal queensSpeedFrame.cols r c))) })
      ∧ apply_filtersE queensSpeedFrame { search_text := some "speed" }
          = PdResult.ok (apply_filters queensSpeedFrame { search_text := some "speed" }) :=
  claim_C1_amended queensSpeedFrame "speed" (by decide) (by decide)

/-- Claim C2 counterexample: the vehicle-type criterion is NOT
case-normalized — on a dataset whose vehicle type cell is "Sedan",
filtering by ["Sedan"] and by ["SEDAN"] yield different results,
contradicting the claim that every categorical set-membership criterion
compares uppercased values. -/
theorem claim_C2_counterexample :
    apply_filters sedanFrame { vehicle_types := some [Value.str "Sedan"] }
      ≠ apply_filters sedanFrame { vehicle_types := some [Value.str "SEDAN"] } := by
  decide

/-- Claim C2 amended: only the borough criterion is case-normalized
(both sides uppercased before the membership test): two borough criteria
that agree after uppercasing — e.g. ["brooklyn"] and ["BROOKLYN"] —
produce identical results on every dataset in combination with any other
criteria.  The injury, person-type, vehicle-type and factor criteria
compare values exactly (see the counterexample). -/
theorem claim_C2_amended (df : Frame) (spec : FilterSpec) (bs bt : List String)
    (h : bs.map pyUpper = bt.map pyUpper) :
    apply_filters df { spec with boroughs := some bs }
      = apply_filters df { spec with boroughs := some bt } := by
  have hemp : bs.isEmpty = bt.isEmpty := by
    cases bs <;> cases bt <;> simp_all
  have hb : boroughStep (some bs) df = boroughStep (some bt) df := by
    simp only [boroughStep, hemp, h]
  dsimp only [apply_filters]
  rw [hb]

/-- Claim C2 amended, witnessed: "brooklyn" vs "BROOKLYN" on the
Example-3 dataset. -/
theorem claim_C2_witness :
    apply_filters queensSpeedFrame { boroughs := some ["brooklyn"] }
      = apply_filters queensSpeedFrame { boroughs := some ["BROOKLYN"] } :=
  claim_C2_amended queensSpeedFrame {} ["brooklyn"] ["BROOKLYN"] (by decide)

/-- Claim C3 (spec-modelled `summarize`): the total crash count is the
number of distinct collision identifiers present in the subset — not the
row count — and persons is the row count; on the Example-4 dataset of 10
person-rows spanning 4 distinct collision identifiers (2 fatal rows,
3 non-fatal-injury rows) the metrics are crashes=4, persons=10,
injuries=5, fatalities=2. -/
theorem claim_C3_summarize :
    (∀ (nl fl : List Value) (df : Frame),
        (summarize nl fl df).crashes
            = (df.rows.map (fun r => getVal df.cols r COL_COLLISION_ID)).toFinset.card
          ∧ (summarize nl fl df).persons = df.rows.length)
      ∧ summarize [Value.str "Unspecified"] [Value.str "Killed"] personsFrame
          = { crashes := 4, persons := 10, injuries := 5, fatalities := 2 } := by
  constructor
  · intro nl fl df
    constructor
    · rw [List.card_toFinset]
      rfl
    · rfl
  · decide

/-- Claim C4 counterexample: `parse` on "staten island 2019" does not
return an empty keyword sequence — tokenization splits on whitespace, so
"island" is classified on its own and lands in the keywords. -/
theorem claim_C4_counterexample :
    parse_search_query "staten island 2019"
      ≠ some { borough := some "STATEN ISLAND", year := some 2019, keywords := [] } := by
  decide

/-- Claim C4 amended: `parse("staten island 2019")` returns
borough="STATEN ISLAND" (from the token "staten"), year=2019, and
keywords=["island"] — the token "island" is not consumed by the borough
rule because the two-word enumeration entry "STATEN ISLAND" can never
equal a single whitespace-split token. -/
theorem claim_C4_amended :
    parse_search_query "staten island 2019"
      = some { borough := some "STATEN ISLAND", year := some 2019, keywords := ["island"] } := by
  decide

/-- Claim C5 counterexample: a record whose searched-column value is
null IS treated as matching when the search string is "nan" — pandas
`.astype(str)` turns `NaN` into the literal string "nan" before the
substring test, so the `na=False` guard never applies. -/
theorem claim_C5_counterexample :
    (apply_filters nullFactorFrame { search_text := some "nan" }).rows ≠ [] := by
  decide

/-- Claim C5 amended: a null cell is stringified to "nan" by
`.astype(str)`, so in a searched column it matches exactly when the
regex search of the trimmed, lowercased search text succeeds on the
string "nan" — pandas `.str.contains` is regex-based, so "na" and the
non-substring pattern "n.n" both match while "x" does not — and
filtering such a cell never raises for patterns that compile. -/
theorem claim_C5_amended :
    (∀ t : String, colSearchMatch t Value.null = reContains t "nan")
      ∧ reContains "n.n" "nan" = true
      ∧ (apply_filters nullFactorFrame { search_text := some "na" }).rows = [[Value.null]]
      ∧ (apply_filters nullFactorFrame { search_text := some "n.n" }).rows = [[Value.null]]
      ∧ (apply_filters nullFactorFrame { search_text := some "x" }).rows = []
      ∧ apply_filtersE nullFactorFrame { search_text := some "na" }
          = PdResult.ok (apply_filters nullFactorFrame { search_text := some "na" }) := by
  refine ⟨fun t => ?_, by decide, by decide, by decide, by decide, by decide⟩
  have hnan : pyLower (pyAstypeStr Value.null) = "nan" := by decide
  show reContains t (pyLower (pyAstypeStr Value.null)) = reContains t "nan"
  rw [hnan]

/-- Claim C6 counterexample: the empty string and a whitespace-only
string do not yield the same result — `parse` returns the empty
dictionary `{}` for the falsy empty string but a dictionary with
borough=None, year=None, keywords=[] for whitespace-only input. -/
theorem claim_C6_counterexample :
    parse_search_query "" ≠ parse_search_query " " := by
  decide

/-- Claim C6 amended: `parse` is total and well-typed, but the empty
string returns the empty dictionary `{}` (modelled `none`) while a
string that strips to empty returns the distinct dictionary with
borough=None, year=None and no keywords. -/
theorem claim_C6_amended :
    parse_search_query "" = none
      ∧ ∀ q : String, q ≠ "" → pyStrip q = "" →
          parse_search_query q = some { borough := none, year := none, keywords := [] } := by
  constructor
  · rfl
  · intro q hq hstrip
    have hq' : (q == "") = false := beq_eq_false_iff_ne.mpr hq
    simp only [parse_search_query, hq']
    rw [if_neg (by simp), hstrip]
    rfl

/-- Claim C6 amended, witnessed at the one-space string. -/
theorem claim_C6_witness :
    parse_search_query " " = some { borough := none, year := none, keywords := [] } :=
  claim_C6_amended.2 " " (by decide) (by decide)

/-- Claim C7 counterexample: the 4-character token "²²²²" is not a
borough token and does not consist of 4 ASCII digits, yet it is neither
parsed as the year nor appended to the keywords — Python `isdigit`
accepts the superscripts, `int()` then raises, and the
`try/except: pass` silently drops the token. -/
theorem claim_C7_counterexample :
    parse_search_query "²²²²" = some { borough := none, year := none, keywords := [] }
      ∧ isFourAsciiDigits "²²²²" = false
      ∧ BOROUGH_TOKENS.contains (pyUpper "²²²²") = false := by
  decide

/-- Claim C7 amended: a non-borough token becomes a year candidate when
all of its 4 characters pass Python `isdigit` (which also accepts
non-ASCII digits: the Arabic-Indic token "٢٠١٩" parses to year 2019);
a year candidate on which `int()` fails is silently dropped; exactly the
tokens that are neither borough tokens nor year candidates are appended
to the keyword sequence in input order. -/
theorem claim_C7_amended :
    (∀ q : String,
        ((parse_search_query q).getD {}).keywords
          = (pySplitWs (pyStrip q)).filter
              (fun p =>
                !BOROUGH_TOKENS.contains (pyUpper p) && !(pyIsDigit p && p.length == 4)))
      ∧ parse_search_query "٢٠١٩"
          = some { borough := none, year := some 2019, keywords := [] } := by
  constructor
  · intro q
    by_cases hq : q = ""
    · subst hq
      decide
    · have hq' : (q == "") = false := beq_eq_false_iff_ne.mpr hq
      simp only [parse_search_query, hq']
      rw [if_neg (by simp)]
      simp only [Option.getD_some]
      rw [keywords_foldl]
      rfl
  · decide

/-- Claim C8 counterexample: nothing is rejected before scanning — an
empty-string borough criterion is passed straight into the scan and even
matches a row whose borough cell is the empty string; a string-typed
year criterion silently matches no numeric year cell instead of being
rejected; and a malformed free-text value such as "(" is not rejected at
construction either: it surfaces as the runtime `re.error` mid-scan
(pandas compiles the search text as a regex). -/
theorem claim_C8_counterexample :
    (apply_filters emptyBoroughFrame { boroughs := some [""] }).rows = [[Value.str ""]]
      ∧ (apply_filters yearFrame { years := some [Value.str "2019"] }).rows = []
      ∧ apply_filtersE nullFactorFrame { search_text := some "(" } = PdResult.reError := by
  decide

/-- Claim C8 amended: there is no FilterSpec construction-time
validation; `apply_filters` accepts arbitrary criterion values (empty
strings, wrongly-typed years) and uses them as ordinary values during
the scan.  The categorical steps never raise and the result always
keeps the schema with its rows an order-preserving subselection of the
input; the free-text step does not raise either whenever the search
criterion is absent, falsy, or a pattern that compiles — but a
malformed regex pattern raises `re.error` mid-scan (see the
counterexample), which contradicts the claim twice over. -/
theorem claim_C8_amended (df : Frame) (spec : FilterSpec) :
    ((apply_filters df spec).cols = df.cols
        ∧ (apply_filters df spec).rows.Sublist df.rows)
      ∧ (searchTextOk spec.search_text = true →
          apply_filtersE df spec = PdResult.ok (apply_filters df spec)) := by
  refine ⟨⟨?_, ?_⟩, ?_⟩
  · show (searchStep _ _).cols = df.cols
    rw [searchStep_cols, isinStep_cols, isinStep_cols, isinStep_cols, isinStep_cols,
      isinStep_cols, isinStep_cols, isinStep_cols, boroughStep_cols]
  · show (searchStep _ _).rows.Sublist df.rows
    exact (searchStep_rows _ _).trans ((isinStep_rows _ _ _).trans ((isinStep_rows _ _ _).trans
      ((isinStep_rows _ _ _).trans ((isinStep_rows _ _ _).trans ((isinStep_rows _ _ _).trans
        ((isinStep_rows _ _ _).trans ((isinStep_rows _ _ _).trans
          (boroughStep_rows _ _))))))))
  · intro h
    exact searchStepE_ok spec.search_text _ h

/-- Claim C8 amended, witnessed at a malformed categorical spec: the
empty-string borough criterion scans without error, the result is a
subselection, and the error-aware run agrees with the total one. -/
theorem claim_C8_witness :
    ((apply_filters emptyBoroughFrame { boroughs := some [""] }).cols = emptyBoroughFrame.cols
        ∧ (apply_filters emptyBoroughFrame
              { boroughs := some [""] }).rows.Sublist emptyBoroughFrame.rows)
      ∧ apply_filtersE emptyBoroughFrame { boroughs := some [""] }
          = PdResult.ok (apply_filters emptyBoroughFrame { boroughs := some [""] }) :=
  ⟨(claim_C8_amended emptyBoroughFrame { boroughs := some [""] }).1,
    (claim_C8_amended emptyBoroughFrame { boroughs := some [""] }).2 (by decide)⟩

/-- Claim C9: a criterion whose column is absent from the dataset's
schema is treated as always-true and never raises: removing it from the
spec leaves the result unchanged, for each of the eight categorical
criteria and for the free-text criterion when its searched columns are
absent; moreover each individually absent searched column is simply
skipped in the free-text mask. -/
theorem claim_C9_absent_noop (df : Frame) (spec : FilterSpec) :
    (COL_BOROUGH ∉ df.cols →
        apply_filters df spec = apply_filters df { spec with boroughs := none })
      ∧ (COL_YEAR ∉ df.cols →
        apply_filters df spec = apply_filters df { spec with years := none })
      ∧ (COL_MONTH ∉ df.cols →
        apply_filters df spec = apply_filters df { spec with months := none })
      ∧ (COL_HOUR ∉ df.cols →
        apply_filters df spec = apply_filters df { spec with hours := none })
      ∧ (COL_PERSON_INJURY ∉ df.cols →
        apply_filters df spec = apply_filters df { spec with injuries := none })
      ∧ (COL_PERSON_TYPE ∉ df.cols →
        apply_filters df spec = apply_filters df { spec with person_types := none })
      ∧ (COL_VEHICLE_TYPE ∉ df.cols →
        apply_filters df spec = apply_filters df { spec with vehicle_types := none })
      ∧ (COL_FACTOR ∉ df.cols →
        apply_filters df spec = apply_filters df { spec with factors := none })
      ∧ (COL_FACTOR ∉ df.cols → COL_VEHICLE_TYPE ∉ df.cols → COL_BOROUGH ∉ df.cols →
        apply_filters df spec = apply_filters df { spec with search_text := none })
      ∧ (∀ (text : String) (row : List Value), COL_FACTOR ∉ df.cols →
        searchMaskOn searchedCols df.cols text row
          = searchMaskOn [COL_VEHICLE_TYPE, COL_BOROUGH] df.cols text row)
      ∧ (∀ (text : String) (row : List Value), COL_VEHICLE_TYPE ∉ df.cols →
        searchMaskOn searchedCols df.cols text row
          = searchMaskOn [COL_FACTOR, COL_BOROUGH] df.cols text row)
      ∧ (∀ (text : String) (row : List Value), COL_BOROUGH ∉ df.cols →
        searchMaskOn searchedCols df.cols text row
          = searchMaskOn [COL_FACTOR, COL_VEHICLE_TYPE] df.cols text row) := by
  refine ⟨?_, ?_, ?_, ?_, ?_, ?_, ?_, ?_, ?_, ?_, ?_, ?_⟩
  · intro h
    simp only [apply_filters]
    simp [isinStep_absent, boroughStep_absent, searchStep_absent, isinStep_none,
      boroughStep_none, searchStep_none, isinStep_cols, boroughStep_cols, searchStep_cols, h]
  · intro h
    simp only [apply_filters]
    simp [isinStep_absent, boroughStep_absent, searchStep_absent, isinStep_none,
      boroughStep_none, searchStep_none, isinStep_cols, boroughStep_cols, searchStep_cols, h]
  · intro h
    simp only [apply_filters]
    simp [isinStep_absent, boroughStep_absent, searchStep_absent, isinStep_none,
      boroughStep_none, searchStep_none, isinStep_cols, boroughStep_cols, searchStep_cols, h]
  · intro h
    simp only [apply_filters]
    simp [isinStep_absent, boroughStep_absent, searchStep_absent, isinStep_none,
      boroughStep_none, searchStep_none, isinStep_cols, boroughStep_cols, searchStep_cols, h]
  · intro h
    simp only [apply_filters]
    simp [isinStep_absent, boroughStep_absent, searchStep_absent, isinStep_none,
      boroughStep_none, searchStep_none, isinStep_cols, boroughStep_cols, searchStep_cols, h]
  · intro h
    simp only [apply_filters]
    simp [isinStep_absent, boroughStep_absent, searchStep_absent, isinStep_none,
      boroughStep_none, searchStep_none, isinStep_cols, boroughStep_cols, searchStep_cols, h]
  · intro h
    simp only [apply_filters]
    simp [isinStep_absent, boroughStep_absent, searchStep_absent, isinStep_none,
      boroughStep_none, searchStep_none, isinStep_cols, boroughStep_cols, searchStep_cols, h]
  · intro h
    simp only [apply_filters]
    simp [isinStep_absent, boroughStep_absent, searchStep_absent, isinStep_none,
      boroughStep_none, searchStep_none, isinStep_cols, boroughStep_cols, searchStep_cols, h]
  · intro h1 h2 h3
    simp only [apply_filters]
    simp [isinStep_absent, boroughStep_absent, searchStep_absent, isinStep_none,
      boroughStep_none, searchStep_none, isinStep_cols, boroughStep_cols, searchStep_cols,
      h1, h2, h3]
  · intro text row h
    simp [searchMaskOn_eq_all, searchedCols, h]
  · intro text row h
    simp [searchMaskOn_eq_all, searchedCols, h]
  · intro text row h
    simp [searchMaskOn_eq_all, searchedCols, h]

/-- Claim C9, witnessed on a dataset with an empty schema (every
criterion column absent) and a fully populated spec. -/
theorem claim_C9_witness :
    (apply_filters noColsFrame fullSpec
        = apply_filters noColsFrame { fullSpec with boroughs := none })
      ∧ (apply_filters noColsFrame fullSpec
        = apply_filters noColsFrame { fullSpec with years := none })
      ∧ (apply_filters noColsFrame fullSpec
        = apply_filters noColsFrame { fullSpec with months := none })
      ∧ (apply_filters noColsFrame fullSpec
        = apply_filters noColsFrame { fullSpec with hours := none })
      ∧ (apply_filters noColsFrame fullSpec
        = apply_filters noColsFrame { fullSpec with injuries := none })
      ∧ (apply_filters noColsFrame fullSpec
        = apply_filters noColsFrame { fullSpec with person_types := none })
      ∧ (apply_filters noColsFrame fullSpec
        = apply_filters noColsFrame { fullSpec with vehicle_types := none })
      ∧ (apply_filters noColsFrame fullSpec
        = apply_filters noColsFrame { fullSpec with factors := none })
      ∧ (apply_filters noColsFrame fullSpec
        = apply_filters noColsFrame { fullSpec with search_text := none })
      ∧ searchMaskOn searchedCols noColsFrame.cols "speed" []
          = searchMaskOn [COL_VEHICLE_TYPE, COL_BOROUGH] noColsFrame.cols "speed" []
      ∧ searchMaskOn searchedCols noColsFrame.cols "speed" []
          = searchMaskOn [COL_FACTOR, COL_BOROUGH] noColsFrame.cols "speed" []
      ∧ searchMaskOn searchedCols noColsFrame.cols "speed" []
          = searchMaskOn [COL_FACTOR, COL_VEHICLE_TYPE] noColsFrame.cols "speed" [] := by
  have h := claim_C9_absent_noop noColsFrame fullSpec
  exact ⟨h.1 (by decide), h.2.1 (by decide), h.2.2.1 (by decide), h.2.2.2.1 (by decide),
    h.2.2.2.2.1 (by decide), h.2.2.2.2.2.1 (by decide), h.2.2.2.2.2.2.1 (by decide),
    h.2.2.2.2.2.2.2.1 (by decide),
    h.2.2.2.2.2.2.2.2.1 (by decide) (by decide) (by decide),
    h.2.2.2.2.2.2.2.2.2.1 "speed" [] (by decide),
    h.2.2.2.2.2.2.2.2.2.2.1 "speed" [] (by decide),
    h.2.2.2.2.2.2.2.2.2.2.2 "speed" [] (by decide)⟩

/-- Claim C10: an absent (`None`) or empty (falsy) criterion is a no-op
— removing it from the spec leaves the result unchanged — and a spec in
which every criterion is absent or empty returns the dataset unchanged:
the same rows in the same order. -/
theorem claim_C10_inactive_noop (df : Frame) (spec : FilterSpec) :
    (critInactive spec.boroughs = true →
        apply_filters df spec = apply_filters df { spec with boroughs := none })
      ∧ (critInactive spec.years = true →
        apply_filters df spec = apply_filters df { spec with years := none })
      ∧ (critInactive spec.months = true →
        apply_filters df spec = apply_filters df { spec with months := none })
      ∧ (critInactive spec.hours = true →
        apply_filters df spec = apply_filters df { spec with hours := none })
      ∧ (critInactive spec.injuries = true →
        apply_filters df spec = apply_filters df { spec with injuries := none })
      ∧ (critInactive spec.person_types = true →
        apply_filters df spec = apply_filters df { spec with person_types := none })
      ∧ (critInactive spec.vehicle_types = true →
        apply_filters df spec = apply_filters df { spec with vehicle_types := none })
      ∧ (critInactive spec.factors = true →
        apply_filters df spec = apply_filters df { spec with factors := none })
      ∧ (searchInactive spec.search_text = true →
        apply_filters df spec = apply_filters df { spec with search_text := none })
      ∧ (specInactive spec = true → apply_filters df spec = df) := by
  refine ⟨?_, ?_, ?_, ?_, ?_, ?_, ?_, ?_, ?_, ?_⟩
  · intro h
    dsimp only [apply_filters]
    rw [boroughStep_inactive spec.boroughs df h, boroughStep_none]
  · intro h
    dsimp only [apply_filters]
    rw [isinStep_inactive spec.years COL_YEAR _ h, isinStep_none]
  · intro h
    dsimp only [apply_filters]
    rw [isinStep_inactive spec.months COL_MONTH _ h, isinStep_none]
  · intro h
    dsimp only [apply_filters]
    rw [isinStep_inactive spec.hours COL_HOUR _ h, isinStep_none]
  · intro h
    dsimp only [apply_filters]
    rw [isinStep_inactive spec.injuries COL_PERSON_INJURY _ h, isinStep_none]
  · intro h
    dsimp only [apply_filters]
    rw [isinStep_inactive spec.person_types COL_PERSON_TYPE _ h, isinStep_none]
  · intro h
    dsimp only [apply_filters]
    rw [isinStep_inactive spec.vehicle_types COL_VEHICLE_TYPE _ h, isinStep_none]
  · intro h
    dsimp only [apply_filters]
    rw [isinStep_inactive spec.factors COL_FACTOR _ h, isinStep_none]
  · intro h
    dsimp only [apply_filters]
    rw [searchStep_inactive spec.search_text _ h, searchStep_none]
  · intro h
    simp only [specInactive, Bool.and_eq_true] at h
    obtain ⟨⟨⟨⟨⟨⟨⟨⟨h1, h2⟩, h3⟩, h4⟩, h5⟩, h6⟩, h7⟩, h8⟩, h9⟩ := h
    dsimp only [apply_filters]
    rw [boroughStep_inactive spec.boroughs df h1,
      isinStep_inactive spec.years COL_YEAR df h2,
      isinStep_inactive spec.months COL_MONTH df h3,
      isinStep_inactive spec.hours COL_HOUR df h4,
      isinStep_inactive spec.injuries COL_PERSON_INJURY df h5,
      isinStep_inactive spec.person_types COL_PERSON_TYPE df h6,
      isinStep_inactive spec.vehicle_types COL_VEHICLE_TYPE df h7,
      isinStep_inactive spec.factors COL_FACTOR df h8,
      searchStep_inactive spec.search_text df h9]

/-- Claim C10, witnessed on the Example-3 dataset with a spec mixing
absent (`None`) and empty (`[]`, `""`) criteria. -/
theorem claim_C10_witness :
    (apply_filters queensSpeedFrame inactiveSpec
        = apply_filters queensSpeedFrame { inactiveSpec with boroughs := none })
      ∧ (apply_filters queensSpeedFrame inactiveSpec
        = apply_filters queensSpeedFrame { inactiveSpec with years := none })
      ∧ (apply_filters queensSpeedFrame inactiveSpec
        = apply_filters queensSpeedFrame { inactiveSpec with months := none })
      ∧ (apply_filters queensSpeedFrame inactiveSpec
        = apply_filters queensSpeedFrame { inactiveSpec with hours := none })
      ∧ (apply_filters queensSpeedFrame inactiveSpec
        = apply_filters queensSpeedFrame { inactiveSpec with injuries := none })
      ∧ (apply_filters queensSpeedFrame inactiveSpec
        = apply_filters queensSpeedFrame { inactiveSpec with person_types := none })
      ∧ (apply_filters queensSpeedFrame inactiveSpec
        = apply_filters queensSpeedFrame { inactiveSpec with vehicle_types := none })
      ∧ (apply_filters queensSpeedFrame inactiveSpec
        = apply_filters queensSpeedFrame { inactiveSpec with factors := none })
      ∧ (apply_filters queensSpeedFrame inactiveSpec
        = apply_filters queensSpeedFrame { inactiveSpec with search_text := none })
      ∧ apply_filters queensSpeedFrame inactiveSpec = queensSpeedFrame := by
  have h := claim_C10_inactive_noop queensSpeedFrame inactiveSpec
  exact ⟨h.1 (by decide), h.2.1 (by decide), h.2.2.1 (by decide), h.2.2.2.1 (by decide),
    h.2.2.2.2.1 (by decide), h.2.2.2.2.2.1 (by decide), h.2.2.2.2.2.2.1 (by decide),
    h.2.2.2.2.2.2.2.1 (by decide), h.2.2.2.2.2.2.2.2.1 (by decide),
    h.2.2.2.2.2.2.2.2.2 (by decide)⟩

end Collisions
